import Mathlib

/-!
Shallow embedding of the AISSB camera-analytics system (frontend React
components plus the backend contracts documented in README_GORENGAN.md and
the system specification).  Pure functions of the source are translated
directly; stateful handlers are modelled as explicit state-passing
functions; JavaScript numbers holding counts are modelled as `Nat` and
pixel/fractional coordinates as `ℚ`.  JavaScript truthiness tests that the
source performs (`if (!zoneState) return null`) are modelled explicitly.
-/

namespace AISSB

/-- MUI icon identifiers used by the dashboard status helpers
(`<Warning />`, `<Person />`, `<CheckCircle />`, or no icon). -/
inductive Icon
  | warning
  | person
  | checkCircle
  | noIcon
deriving DecidableEq, Repr

/-- The chip descriptor returned by `getQueueStatusInfo` in the Dashboard
component (src/unnamed/part_005): a label, an MUI color name and an icon. -/
structure QueueInfo where
  label : String
  color : String
  icon : Icon
deriving DecidableEq, Repr

/-- A queue/kasir zone state value as the Dashboard receives it over the
API: the legacy encoding is a bare number, the new encoding is an object
with a `person_count` field; an object lacking that field is also possible
(the source tests `zoneState.person_count !== undefined`). -/
inductive QueueZoneState
  | num (count : Nat)
  | obj (person_count : Nat)
  | objNoCount
deriving DecidableEq, Repr

/-- JavaScript truthiness of the `zoneState` argument as tested by
`if (!zoneState) return null`: `null`/`undefined` and the number `0` are
falsy; every object is truthy. -/
def queueFalsy : Option QueueZoneState → Bool
  | none => true
  | some (.num count) => count == 0
  | some (.obj _) => false
  | some .objNoCount => false

/-- `getQueueStatusInfo` from src/unnamed/part_005 lines 263-281: the
`!zoneState` guard, then the `typeof zoneState === 'number'` branch, then
the object branch guarded by `person_count !== undefined`. -/
def getQueueStatusInfo (zoneState : Option QueueZoneState) : Option QueueInfo :=
  if queueFalsy zoneState then none
  else
    match zoneState with
    | some (.num count) =>
        if count > 4 then some ⟨s!"Penuh ({count} orang)", "error", .warning⟩
        else if count > 0 then some ⟨s!"{count} orang", "warning", .person⟩
        else some ⟨"Kosong", "success", .checkCircle⟩
    | some (.obj person_count) =>
        let count := person_count
        if count > 4 then some ⟨s!"Penuh ({count} orang)", "error", .warning⟩
        else if count > 0 then some ⟨s!"{count} orang", "warning", .person⟩
        else some ⟨"Kosong", "success", .checkCircle⟩
    | _ => none

/-- C2: for every queue/kasir zone state `{person_count : n}`, the derived
label is "Kosong" (empty) iff `n = 0`, the count label ("n orang") iff
`1 ≤ n ≤ 4`, and "Penuh" (full) iff `n > 4`. -/
theorem queue_label_thresholds (n : Nat) :
    (getQueueStatusInfo (some (.obj n)) = some ⟨"Kosong", "success", .checkCircle⟩ ↔ n = 0) ∧
    (getQueueStatusInfo (some (.obj n)) = some ⟨s!"{n} orang", "warning", .person⟩ ↔ 1 ≤ n ∧ n ≤ 4) ∧
    (getQueueStatusInfo (some (.obj n)) = some ⟨s!"Penuh ({n} orang)", "error", .warning⟩ ↔ 4 < n) := by
  have hguard : queueFalsy (some (.obj n)) = false := rfl
  simp only [getQueueStatusInfo, hguard, Bool.false_eq_true, if_false]
  split_ifs with h1 h2 <;>
    simp_all [QueueInfo.mk.injEq] <;> omega

/-- C9 counterexample: the legacy integer queue state `0` is falsy in
JavaScript, so `getQueueStatusInfo` returns `null` for it, while the object
state `{person_count: 0}` yields the "Kosong" chip — the two encodings are
not interchangeable at `n = 0`. -/
theorem queue_legacy_zero_differs :
    getQueueStatusInfo (some (.num 0)) = none ∧
    getQueueStatusInfo (some (.obj 0)) = some ⟨"Kosong", "success", .checkCircle⟩ ∧
    getQueueStatusInfo (some (.num 0)) ≠ getQueueStatusInfo (some (.obj 0)) := by
  refine ⟨rfl, rfl, by decide⟩

/-- C9 amended: for every `n ≥ 1` the legacy integer queue state `n` and
the object state `{person_count: n}` produce exactly the same chip (label,
color/severity and icon); only `n = 0` distinguishes the encodings. -/
theorem queue_repr_independent_pos (n : Nat) (h : 1 ≤ n) :
    getQueueStatusInfo (some (.num n)) = getQueueStatusInfo (some (.obj n)) := by
  have hnum : queueFalsy (some (.num n)) = false := by
    simp [queueFalsy]
    omega
  have hobj : queueFalsy (some (.obj n)) = false := rfl
  simp only [getQueueStatusInfo, hnum, hobj, Bool.false_eq_true, if_false]

/-- Witness for `queue_repr_independent_pos` at `n = 2`. -/
theorem queue_repr_independent_pos_witness :
    getQueueStatusInfo (some (.num 2)) = getQueueStatusInfo (some (.obj 2)) :=
  queue_repr_independent_pos 2 (by decide)

/-- The object form of a table zone state as consumed by the Dashboard:
fields `status`, `person_count`, `item_count`, `timer` and
`needs_cleaning` (the backend's object encoding). -/
structure TableObjState where
  status : String
  person_count : Nat
  item_count : Nat
  timer : Nat
  needs_cleaning : Bool
deriving DecidableEq, Repr

/-- A table zone state value as received over the API: legacy bare number
or the object encoding. -/
inductive TableZoneState
  | num (n : Nat)
  | obj (s : TableObjState)
deriving DecidableEq, Repr

/-- JavaScript truthiness of the table `zoneState` argument
(`if (!zoneState) return null`). -/
def tableFalsy : Option TableZoneState → Bool
  | none => true
  | some (.num n) => n == 0
  | some (.obj _) => false

/-- The chip descriptor returned by `getTableStatusInfo`: label, MUI
color, icon and the `description` line (absent entries modelled as ""). -/
structure TableInfo where
  label : String
  color : String
  icon : Icon
  description : String
deriving DecidableEq, Repr

/-- `getTableStatusInfo` from src/unnamed/part_005 lines 233-260: the
`!zoneState` guard, the legacy number branch (`0 → Bersih`, `> 3 → Kotor`,
otherwise Unknown — the `0` case is unreachable because `0` is falsy), and
the object branch guarded by the truthiness of `zoneState.status`, looking
the status up in `statusMap` with a fallback chip for unknown statuses. -/
def getTableStatusInfo (zoneState : Option TableZoneState) : Option TableInfo :=
  if tableFalsy zoneState then none
  else
    match zoneState with
    | some (.num n) =>
        if n = 0 then some ⟨"Bersih", "success", .checkCircle, ""⟩
        else if n > 3 then some ⟨s!"Kotor ({n * 5}s)", "error", .warning, ""⟩
        else some ⟨"Unknown", "default", .noIcon, ""⟩
    | some (.obj s) =>
        if s.status = "" then none
        else if s.status = "TERISI" then
          some ⟨"Terisi", "info", .person, s!"{s.person_count} orang, {s.item_count} items"⟩
        else if s.status = "KOTOR" then
          some ⟨if s.needs_cleaning then "Kotor - Perlu Dibersihkan!" else s!"Kotor ({s.timer * 5}s)",
                if s.needs_cleaning then "error" else "warning",
                .warning,
                s!"{s.item_count} items tersisa"⟩
        else if s.status = "BERSIH" then
          some ⟨"Bersih", "success", .checkCircle, "Siap digunakan"⟩
        else some ⟨s.status, "default", .noIcon, ""⟩
    | none => none

/-- Modelled from the spec: the backend Zone Evaluator (ai_core.py) is not
in src/; per §4.3, while a table is KOTOR its `needs_cleaning` flag
becomes true once `dirty_timer ≥ 3`. -/
def needsCleaningFlag (dirty_timer : Nat) : Bool :=
  decide (3 ≤ dirty_timer)

/-- C3: for a table zone in state KOTOR whose `needs_cleaning` flag is
computed from `dirty_timer` as the spec prescribes, the flag is true iff
`dirty_timer ≥ 3`, and the Dashboard surfaces the "Kotor - Perlu
Dibersihkan!" / error chip exactly when `dirty_timer ≥ 3` (so
`dirty_timer = 3` is already reported as needing cleaning). -/
theorem table_kotor_needs_cleaning (pc ic t : Nat) :
    (needsCleaningFlag t = true ↔ 3 ≤ t) ∧
    (getTableStatusInfo (some (.obj ⟨"KOTOR", pc, ic, t, needsCleaningFlag t⟩)) =
        some ⟨"Kotor - Perlu Dibersihkan!", "error", .warning, s!"{ic} items tersisa"⟩ ↔ 3 ≤ t) := by
  constructor
  · simp [needsCleaningFlag]
  · rcases Nat.lt_or_ge t 3 with h | h
    · have hflag : needsCleaningFlag t = false := by
        simp [needsCleaningFlag]
        omega
      simp [getTableStatusInfo, tableFalsy, hflag, TableInfo.mk.injEq]
      omega
    · have hflag : needsCleaningFlag t = true := by
        simp [needsCleaningFlag]
        omega
      simp [getTableStatusInfo, tableFalsy, hflag, h]

/-- Table statuses; per the spec the state takes no value outside
\x7bBERSIH, TERISI, KOTOR\x7d. -/
inductive TableStatus
  | BERSIH
  | TERISI
  | KOTOR
deriving DecidableEq, Repr

/-- Modelled from the spec: the backend Zone Evaluator's table state
machine (ai_core.py) is not in src/; per §4.3 its one-tick transition is
BERSIH→TERISI when a person and/or item detection appears, TERISI→KOTOR
when `person_count = 0` while `item_count > 0`, KOTOR→BERSIH when
`item_count` returns to 0, and the state is unchanged otherwise. -/
def tableStep (st : TableStatus) (person_count item_count : Nat) : TableStatus :=
  match st with
  | .BERSIH => if 0 < person_count ∨ 0 < item_count then .TERISI else .BERSIH
  | .TERISI => if person_count = 0 ∧ 0 < item_count then .KOTOR else .TERISI
  | .KOTOR => if item_count = 0 then .BERSIH else .KOTOR

/-- C7: the table state machine advances per tick exactly as specified:
BERSIH moves to TERISI iff a person or item is present; TERISI moves to
KOTOR iff `person_count = 0` and `item_count > 0`; KOTOR returns to BERSIH
iff `item_count = 0`; and every reachable value is one of the three
statuses. -/
theorem table_step_transitions (p i : Nat) :
    (tableStep .BERSIH p i = .TERISI ↔ 0 < p ∨ 0 < i) ∧
    (tableStep .TERISI p i = .KOTOR ↔ p = 0 ∧ 0 < i) ∧
    (tableStep .KOTOR p i = .BERSIH ↔ i = 0) ∧
    (∀ st : TableStatus, tableStep st p i = .BERSIH ∨
        tableStep st p i = .TERISI ∨ tableStep st p i = .KOTOR) := by
  refine ⟨?_, ?_, ?_, ?_⟩
  · simp only [tableStep]
    split_ifs with h <;> simp [h]
  · simp only [tableStep]
    split_ifs with h <;> simp [h]
  · simp only [tableStep]
    split_ifs with h <;> simp [h]
  · intro st
    cases h : tableStep st p i
    · exact Or.inl rfl
    · exact Or.inr (Or.inl rfl)
    · exact Or.inr (Or.inr rfl)

/-- A bounding box as published to the frontend: pixel corners plus
optional fractional corners (the source tests `bbox.x1_pct !== undefined`
per coordinate). -/
structure BBox where
  x1 : ℚ
  y1 : ℚ
  x2 : ℚ
  y2 : ℚ
  x1_pct : Option ℚ
  y1_pct : Option ℚ
  x2_pct : Option ℚ
  y2_pct : Option ℚ
deriving DecidableEq, Repr

/-- A centroid as published to the frontend: pixel point plus optional
fractional point. -/
structure Centroid where
  x : ℚ
  y : ℚ
  x_pct : Option ℚ
  y_pct : Option ℚ
deriving DecidableEq, Repr

/-- One coordinate of `drawOverlay` (src/unnamed/part_005 lines 340-383 and
LiveMonitor.jsx lines 122-165, identical): use the fractional value scaled
by the canvas size when present, otherwise divide the pixel value by the
frame size and scale by the canvas size. -/
def overlayCoord (pct : Option ℚ) (pixel frame canvasSize : ℚ) : ℚ :=
  match pct with
  | some p => p * canvasSize
  | none => pixel / frame * canvasSize

/-- The canvas positions `drawOverlay` computes for a detection's bounding
box corners: (x1, y1, x2, y2) on the canvas. -/
def overlayBBox (b : BBox) (frameW frameH canvasW canvasH : ℚ) : ℚ × ℚ × ℚ × ℚ :=
  (overlayCoord b.x1_pct b.x1 frameW canvasW,
   overlayCoord b.y1_pct b.y1 frameH canvasH,
   overlayCoord b.x2_pct b.x2 frameW canvasW,
   overlayCoord b.y2_pct b.y2 frameH canvasH)

/-- The canvas position `drawOverlay` computes for a detection's centroid. -/
def overlayCentroid (c : Centroid) (frameW frameH canvasW canvasH : ℚ) : ℚ × ℚ :=
  (overlayCoord c.x_pct c.x frameW canvasW,
   overlayCoord c.y_pct c.y frameH canvasH)

/-- Erase the fractional fields of a bounding box, forcing the renderer
onto the pixel branch. -/
def BBox.pixelOnly (b : BBox) : BBox :=
  { b with x1_pct := none, y1_pct := none, x2_pct := none, y2_pct := none }

/-- Erase the fractional fields of a centroid. -/
def Centroid.pixelOnly (c : Centroid) : Centroid :=
  { c with x_pct := none, y_pct := none }

/-- C6: for every detection whose fractional coordinates equal its pixel
coordinates divided by the frame size (the consistency the publisher
guarantees), the overlay renderer computes the same canvas positions
through the fractional branch as it would through the pixel branch, for
the whole bounding box and the centroid. -/
theorem overlay_frac_pixel_agree (b : BBox) (c : Centroid)
    (frameW frameH canvasW canvasH : ℚ)
    (hb1 : b.x1_pct = some (b.x1 / frameW)) (hb2 : b.y1_pct = some (b.y1 / frameH))
    (hb3 : b.x2_pct = some (b.x2 / frameW)) (hb4 : b.y2_pct = some (b.y2 / frameH))
    (hc1 : c.x_pct = some (c.x / frameW)) (hc2 : c.y_pct = some (c.y / frameH)) :
    overlayBBox b frameW frameH canvasW canvasH =
      overlayBBox b.pixelOnly frameW frameH canvasW canvasH ∧
    overlayCentroid c frameW frameH canvasW canvasH =
      overlayCentroid c.pixelOnly frameW frameH canvasW canvasH := by
  constructor
  · simp [overlayBBox, overlayCoord, BBox.pixelOnly, hb1, hb2, hb3, hb4]
  · simp [overlayCentroid, overlayCoord, Centroid.pixelOnly, hc1, hc2]

/-- Witness for `overlay_frac_pixel_agree` on a concrete detection:
bbox (100,50)-(300,250) with centroid (200,150) in a 640×480 frame. -/
theorem overlay_frac_pixel_agree_witness :
    overlayBBox ⟨100, 50, 300, 250, some (100 / 640), some (50 / 480),
        some (300 / 640), some (250 / 480)⟩ 640 480 320 240 =
      overlayBBox (BBox.pixelOnly ⟨100, 50, 300, 250, some (100 / 640), some (50 / 480),
        some (300 / 640), some (250 / 480)⟩) 640 480 320 240 ∧
    overlayCentroid ⟨200, 150, some (200 / 640), some (150 / 480)⟩ 640 480 320 240 =
      overlayCentroid (Centroid.pixelOnly ⟨200, 150, some (200 / 640), some (150 / 480)⟩)
        640 480 320 240 :=
  overlay_frac_pixel_agree _ _ 640 480 320 240 rfl rfl rfl rfl rfl rfl

/-- A mouse position on the ZoneEditor canvas, in canvas pixel
coordinates (the output of `getMousePos`). -/
structure Pt where
  x : ℚ
  y : ℚ
deriving DecidableEq, Repr

/-- The rectangle being drawn (`currentRect`): origin, width and height in
canvas pixels. -/
structure DrawRect where
  x : ℚ
  y : ℚ
  width : ℚ
  height : ℚ
deriving DecidableEq, Repr

/-- `handleMouseMove` from src/unnamed/part_002 lines 188-198: normalize
the drag from `startPos` to `pos` with min for the origin and abs for the
extent. -/
def handleMouseMoveRect (startPos pos : Pt) : DrawRect :=
  { x := min startPos.x pos.x
    y := min startPos.y pos.y
    width := |pos.x - startPos.x|
    height := |pos.y - startPos.y| }

/-- `handleMouseUp` from src/unnamed/part_002 lines 201-212: the save
dialog opens only when the drawn rectangle exceeds 10×10 pixels. -/
def mouseUpOpensSave (r : DrawRect) : Bool :=
  decide (10 < r.width) && decide (10 < r.height)

/-- Percentage zone coordinates (x1, y1, x2, y2). -/
structure Coords where
  x1 : ℚ
  y1 : ℚ
  x2 : ℚ
  y2 : ℚ
deriving DecidableEq, Repr

/-- `handleSaveZone` from src/unnamed/part_002 lines 243-247: convert the
drawn rectangle to percentages of the canvas size. -/
def saveZoneCoords (r : DrawRect) (canvasW canvasH : ℚ) : Coords :=
  { x1 := r.x / canvasW
    y1 := r.y / canvasH
    x2 := (r.x + r.width) / canvasW
    y2 := (r.y + r.height) / canvasH }

/-- The zone-coordinate invariant of the spec:
0 ≤ x1 < x2 ≤ 1 and 0 ≤ y1 < y2 ≤ 1. -/
def coordsOk (c : Coords) : Prop :=
  0 ≤ c.x1 ∧ c.x1 < c.x2 ∧ c.x2 ≤ 1 ∧ 0 ≤ c.y1 ∧ c.y1 < c.y2 ∧ c.y2 ≤ 1

instance (c : Coords) : Decidable (coordsOk c) := by
  unfold coordsOk
  infer_instance

/-- C1 counterexample: a drag from (-20,-20) to (0,0) — whose starting
endpoint lies outside a 100×100 canvas — passes the 10×10-pixel check and
opens the save dialog, but the saved coords are (-1/5, -1/5, 0, 0),
violating 0 ≤ x1 < x2 ≤ 1: the save path performs no clamping to the
canvas. -/
theorem zone_editor_escape_counterexample :
    mouseUpOpensSave (handleMouseMoveRect ⟨-20, -20⟩ ⟨0, 0⟩) = true ∧
    ¬ coordsOk (saveZoneCoords (handleMouseMoveRect ⟨-20, -20⟩ ⟨0, 0⟩) 100 100) := by
  have hrect : handleMouseMoveRect ⟨-20, -20⟩ ⟨0, 0⟩ = ⟨-20, -20, 20, 20⟩ := by
    simp only [handleMouseMoveRect, DrawRect.mk.injEq]
    norm_num [min_def, abs_of_nonneg]
  constructor
  · rw [hrect]
    simp only [mouseUpOpensSave, Bool.and_eq_true, decide_eq_true_eq]
    norm_num
  · rw [hrect]
    simp only [coordsOk, saveZoneCoords, not_and]
    intro h
    norm_num at h

/-- min plus the absolute difference is max. -/
lemma min_add_abs_sub (a b : ℚ) : min a b + |b - a| = max a b := by
  rcases le_total a b with h | h
  · rw [min_eq_left h, max_eq_right h, abs_of_nonneg (sub_nonneg.mpr h)]
    ring
  · rw [min_eq_right h, max_eq_left h, abs_of_nonpos (sub_nonpos.mpr h)]
    ring

/-- C1 amended: for every drag whose two endpoints lie within the canvas
(positive canvas dimensions), a rectangle accepted by the 10×10-pixel check
yields saved coords satisfying 0 ≤ x1 < x2 ≤ 1 and 0 ≤ y1 < y2 ≤ 1; only
drag endpoints outside the canvas can break the invariant. -/
theorem zone_editor_coords_ok (startPos pos : Pt) (canvasW canvasH : ℚ)
    (hW : 0 < canvasW) (hH : 0 < canvasH)
    (hsx0 : 0 ≤ startPos.x) (hsx1 : startPos.x ≤ canvasW)
    (hsy0 : 0 ≤ startPos.y) (hsy1 : startPos.y ≤ canvasH)
    (hpx0 : 0 ≤ pos.x) (hpx1 : pos.x ≤ canvasW)
    (hpy0 : 0 ≤ pos.y) (hpy1 : pos.y ≤ canvasH)
    (haccept : mouseUpOpensSave (handleMouseMoveRect startPos pos) = true) :
    coordsOk (saveZoneCoords (handleMouseMoveRect startPos pos) canvasW canvasH) := by
  have hw : 10 < |pos.x - startPos.x| := by
    have := (Bool.and_eq_true _ _).mp haccept
    simpa [handleMouseMoveRect, mouseUpOpensSave] using this.1
  have hh : 10 < |pos.y - startPos.y| := by
    have := (Bool.and_eq_true _ _).mp haccept
    simpa [handleMouseMoveRect, mouseUpOpensSave] using this.2
  have hxmax : min startPos.x pos.x + |pos.x - startPos.x| = max startPos.x pos.x :=
    min_add_abs_sub _ _
  have hymax : min startPos.y pos.y + |pos.y - startPos.y| = max startPos.y pos.y :=
    min_add_abs_sub _ _
  have hxlt : min startPos.x pos.x < min startPos.x pos.x + |pos.x - startPos.x| := by
    linarith
  have hylt : min startPos.y pos.y < min startPos.y pos.y + |pos.y - startPos.y| := by
    linarith
  refine ⟨?_, ?_, ?_, ?_, ?_, ?_⟩
  · exact div_nonneg (le_min hsx0 hpx0) hW.le
  · exact (div_lt_div_iff_of_pos_right hW).mpr hxlt
  · rw [saveZoneCoords, handleMouseMoveRect, div_le_one hW]
    simpa [hxmax] using max_le hsx1 hpx1
  · exact div_nonneg (le_min hsy0 hpy0) hH.le
  · exact (div_lt_div_iff_of_pos_right hH).mpr hylt
  · rw [saveZoneCoords, handleMouseMoveRect, div_le_one hH]
    simpa [hymax] using max_le hsy1 hpy1

/-- Witness for `zone_editor_coords_ok`: a drag from (10,10) to (40,40) on
a 100×100 canvas. -/
theorem zone_editor_coords_ok_witness :
    coordsOk (saveZoneCoords (handleMouseMoveRect ⟨10, 10⟩ ⟨40, 40⟩) 100 100) :=
  zone_editor_coords_ok ⟨10, 10⟩ ⟨40, 40⟩ 100 100 (by norm_num) (by norm_num)
    (by norm_num) (by norm_num) (by norm_num) (by norm_num) (by norm_num)
    (by norm_num) (by norm_num) (by norm_num)
    (by simp only [handleMouseMoveRect, mouseUpOpensSave, Bool.and_eq_true,
          decide_eq_true_eq]
        norm_num [min_def, abs_of_nonneg])

/-- A stock (gorengan) zone state: the `detail` mapping from present item
class to current count, as in README_GORENGAN.md's Zone State example. -/
def StockDetail : Type := List (String × Nat)

/-- The zone's `total`: sum of the per-class counts. -/
def stockTotal (detail : StockDetail) : Nat :=
  (detail.map (fun e => e.2)).sum

/-- A billing record as in README_GORENGAN.md's Billing Events example:
zone name, item name, quantity. -/
structure BillingRecord where
  zone_name : String
  item_name : String
  qty : Nat
deriving DecidableEq, Repr

/-- The uppercased `GORENGAN_`-prefixed item name used in billing events
(e.g. class "bakwan" → item "GORENGAN_BAKWAN"). -/
def gorenganItemName (cls : String) : String :=
  "GORENGAN_" ++ cls.toUpper

/-- Modelled from the spec: the backend Billing Emitter (ai_core.py) is
not in src/; per §4.4 and README_GORENGAN.md, each tick a stock zone emits
one record per item class present plus one aggregate
`GORENGAN_TOTAL_STOCK` record whose qty is the zone total. -/
def billingRecords (zoneName : String) (detail : StockDetail) : List BillingRecord :=
  (detail.map fun e => ⟨zoneName, gorenganItemName e.1, e.2⟩) ++
    [⟨zoneName, "GORENGAN_TOTAL_STOCK", stockTotal detail⟩]

/-- C4: the emitted billing snapshot is one record per item class present
followed by a single aggregate record, and summing the per-class records'
quantities reproduces the aggregate `GORENGAN_TOTAL_STOCK` record's qty. -/
theorem billing_total_roundtrip (zoneName : String) (detail : StockDetail) :
    ((billingRecords zoneName detail).dropLast.map (fun r => r.qty)).sum = stockTotal detail ∧
    (billingRecords zoneName detail).getLast? =
      some ⟨zoneName, "GORENGAN_TOTAL_STOCK", stockTotal detail⟩ ∧
    (billingRecords zoneName detail).dropLast =
      detail.map (fun e => ⟨zoneName, gorenganItemName e.1, e.2⟩) := by
  have hdrop : (billingRecords zoneName detail).dropLast =
      detail.map (fun e => ⟨zoneName, gorenganItemName e.1, e.2⟩) := by
    simp [billingRecords]
  refine ⟨?_, ?_, hdrop⟩
  · rw [hdrop, stockTotal, List.map_map]
    rfl
  · simp [billingRecords]

/-- Modelled from the spec: the backend Alert Emitter (ai_core.py) is not
in src/; per §4.5 and README_GORENGAN.md, a `low_stock` alert is raised
for a stock zone exactly when its total is below `MIN_STOCK_THRESHOLD`. -/
def lowStockAlert (minStockThreshold : Nat) (detail : StockDetail) : Bool :=
  decide (stockTotal detail < minStockThreshold)

/-- The documented default `MIN_STOCK_THRESHOLD` from
backend/config_gorengan.py as quoted in README_GORENGAN.md. -/
def MIN_STOCK_THRESHOLD : Nat := 3

/-- C5: for every threshold and stock zone, the `low_stock` alert fires
iff the zone total is strictly below the threshold; with the documented
default threshold 3, the spec's concrete scenario holds: totals
2+1 = 3 raise no alert, a total of 2 does. -/
theorem low_stock_iff (threshold : Nat) (detail : StockDetail) :
    (lowStockAlert threshold detail = true ↔ stockTotal detail < threshold) ∧
    lowStockAlert MIN_STOCK_THRESHOLD
      [("bakwan", 2), ("tahu_goreng", 1)] = false ∧
    lowStockAlert MIN_STOCK_THRESHOLD
      [("bakwan", 2), ("tahu_goreng", 0)] = true := by
  refine ⟨?_, by decide, by decide⟩
  simp [lowStockAlert]

/-- A registered camera: id plus active flag (§3 of the spec). -/
structure Camera where
  id : Nat
  active : Bool
deriving DecidableEq, Repr

/-- Modelled from the spec: the backend Background Service Controller is
not in src/ (Reports.jsx's backgroundServiceAPI only issues the HTTP
calls); per §4.8 the controller holds an enabled flag and the ids of the
cameras that currently have a running Worker. -/
structure Controller where
  enabled : Bool
  workers : List Nat
deriving DecidableEq, Repr

/-- The controller's `status()` result: enabled flag and
`active_threads`, the number of running Workers. -/
structure ServiceStatus where
  enabled : Bool
  active_threads : Nat
deriving DecidableEq, Repr

/-- Modelled from the spec: `status()` per §4.8. -/
def Controller.serviceStatus (c : Controller) : ServiceStatus :=
  ⟨c.enabled, c.workers.length⟩

/-- Modelled from the spec: `enable()` per §4.8 starts a Worker for every
currently-registered active camera that does not already have one
running. -/
def Controller.enable (cams : List Camera) (c : Controller) : Controller :=
  { enabled := true
    workers := c.workers ++
      ((cams.filter fun cam => cam.active && !(c.workers.contains cam.id)).map
        fun cam => cam.id) }

/-- Modelled from the spec: `disable()` per §4.8 signals every running
Worker to stop and waits for confirmation, leaving no Worker running. -/
def Controller.disable (_c : Controller) : Controller :=
  { enabled := false, workers := [] }

/-- The freshly-started (never-enabled) controller. -/
def Controller.init : Controller :=
  { enabled := false, workers := [] }

/-- Every active registered camera has a Worker after `enable()`. -/
lemma enable_covers_active (cams : List Camera) (c : Controller) :
    ∀ cam ∈ cams, cam.active = true →
      cam.id ∈ (Controller.enable cams c).workers := by
  intro cam hmem hact
  simp only [Controller.enable, List.mem_append]
  by_cases hin : cam.id ∈ c.workers
  · exact Or.inl hin
  · refine Or.inr ?_
    simp only [List.mem_map, List.mem_filter]
    refine ⟨cam, ⟨hmem, ?_⟩, rfl⟩
    simp [hact, hin]

/-- C8: from a state with no running Worker, `enable()` leaves
`active_threads` equal to the number of registered active cameras;
`enable()` twice is the same controller state as `enable()` once; after
`disable()`, `active_threads` is 0; and `disable()` on an
already-disabled controller is a no-op. -/
theorem controller_enable_disable (cams : List Camera) (c : Controller)
    (hidle : c.workers = []) :
    ((Controller.enable cams c).serviceStatus).active_threads =
      (cams.filter fun cam => cam.active).length ∧
    Controller.enable cams (Controller.enable cams c) = Controller.enable cams c ∧
    ((Controller.disable c).serviceStatus).active_threads = 0 ∧
    Controller.disable Controller.init = Controller.init := by
  refine ⟨?_, ?_, rfl, rfl⟩
  · simp only [Controller.serviceStatus, Controller.enable, hidle, List.nil_append,
      List.length_map]
    congr 1
    apply List.filter_congr
    intro cam _
    simp [hidle]
  · have hsecond : (cams.filter fun cam =>
        cam.active && !((Controller.enable cams c).workers.contains cam.id)) = [] := by
      rw [List.filter_eq_nil_iff]
      intro cam hmem
      by_cases hact : cam.active = true
      · simp [hact, enable_covers_active cams c cam hmem hact]
      · simp [Bool.eq_false_iff.mpr hact]
    have hunfold : Controller.enable cams (Controller.enable cams c) =
        { enabled := true
          workers := (Controller.enable cams c).workers ++
            ((cams.filter fun cam => cam.active &&
                !((Controller.enable cams c).workers.contains cam.id)).map
              fun cam => cam.id) } := rfl
    rw [hunfold, hsecond]
    simp only [List.map_nil, List.append_nil]
    rfl

/-- Witness for `controller_enable_disable`: two cameras, one active, from
the initial controller. -/
theorem controller_enable_disable_witness :
    ((Controller.enable [⟨1, true⟩, ⟨2, false⟩] Controller.init).serviceStatus).active_threads =
      (([⟨1, true⟩, ⟨2, false⟩] : List Camera).filter fun cam => cam.active).length ∧
    Controller.enable [⟨1, true⟩, ⟨2, false⟩]
        (Controller.enable [⟨1, true⟩, ⟨2, false⟩] Controller.init) =
      Controller.enable [⟨1, true⟩, ⟨2, false⟩] Controller.init ∧
    ((Controller.disable Controller.init).serviceStatus).active_threads = 0 ∧
    Controller.disable Controller.init = Controller.init :=
  controller_enable_disable [⟨1, true⟩, ⟨2, false⟩] Controller.init rfl

/-- Result of an awaited staffFaceAPI call: resolved value or rejection
detail. -/
inductive ApiResult (α : Type)
  | ok (val : α)
  | err (detail : String)
deriving DecidableEq, Repr

/-- The outcomes the environment supplies for the four staffFaceAPI calls
a handler may make. -/
structure StaffFacesEnv where
  uploadRes : ApiResult String
  deleteRes : ApiResult Unit
  listRes : ApiResult (List String)
  reloadRes : ApiResult Nat
deriving DecidableEq, Repr

/-- The API calls a handler issues, in order. -/
inductive ClientCall
  | upload
  | deleteFace
  | listFaces
  | reloadFaces
deriving DecidableEq, Repr

/-- The StaffFaceManager component state touched by the handlers
(src/unnamed/part_001). -/
structure UIState where
  staffFaces : List String
  loading : Bool
  uploading : Bool
  error : Option String
  success : Option String
  uploadDialogOpen : Bool
  selectedFile : Option String
  preview : Option String
  staffName : String
  deleteDialogOpen : Bool
  fileToDelete : Option String
deriving DecidableEq, Repr

/-- JavaScript `String.prototype.trim()`: drop leading and trailing
whitespace (executable, list-based). -/
def jsTrim (s : String) : String :=
  String.mk ((((s.toList.dropWhile Char.isWhitespace).reverse.dropWhile
    Char.isWhitespace).reverse))

/-- `loadStaffFaces` from src/unnamed/part_001 lines 47-58: sets loading,
clears the error, replaces the list on success or records the rejection
detail on failure, and clears loading in the finally block; it never
rethrows. -/
def loadStaffFaces (listRes : ApiResult (List String)) (st : UIState) : UIState :=
  let st1 := { st with loading := true, error := none }
  let st2 :=
    match listRes with
    | .ok data => { st1 with staffFaces := data }
    | .err d => { st1 with error := some d }
  { st2 with loading := false }

/-- The success banner `handleUpload` shows. -/
def uploadSuccessMsg (name : String) : String :=
  s!"Foto staff \"{name}\" berhasil diupload!"

/-- `handleUpload` from src/unnamed/part_001 lines 94-129: guards, the
upload call, then on success the banner, dialog reset, `loadStaffFaces`,
and the reload call inside its own try/catch whose failure is only logged
with console.warn (no state change); the outer catch records the upload
rejection detail; finally clears `uploading`. -/
def handleUpload (env : StaffFacesEnv) (st : UIState) : UIState × List ClientCall :=
  match st.selectedFile with
  | none => ({ st with error := some "Pilih file terlebih dahulu" }, [])
  | some _ =>
    if jsTrim st.staffName = "" then
      ({ st with error := some "Masukkan nama staff terlebih dahulu" }, [])
    else
      let st1 := { st with uploading := true, error := none, success := none }
      match env.uploadRes with
      | .ok name =>
          let st2 := { st1 with
            success := some (uploadSuccessMsg name)
            uploadDialogOpen := false
            selectedFile := none
            preview := none
            staffName := "" }
          let st3 := loadStaffFaces env.listRes st2
          let st4 := { st3 with uploading := false }
          (st4, [.upload, .listFaces, .reloadFaces])
      | .err d =>
          ({ st1 with error := some d, uploading := false }, [.upload])

/-- `handleDeleteConfirm` from src/unnamed/part_001 lines 136-161: guard
on `fileToDelete`, the delete call, then on success the banner, dialog
reset, `loadStaffFaces`, and the reload call inside its own try/catch
whose failure is only logged (no state change); the outer catch records
the delete rejection detail; finally clears `loading`. -/
def handleDeleteConfirm (env : StaffFacesEnv) (st : UIState) : UIState × List ClientCall :=
  match st.fileToDelete with
  | none => (st, [])
  | some _ =>
    let st1 := { st with loading := true, error := none, success := none }
    match env.deleteRes with
    | .ok _ =>
        let st2 := { st1 with
          success := some "Foto staff berhasil dihapus"
          deleteDialogOpen := false
          fileToDelete := none }
        let st3 := loadStaffFaces env.listRes st2
        let st4 := { st3 with loading := false }
        (st4, [.deleteFace, .listFaces, .reloadFaces])
    | .err d =>
        ({ st1 with error := some d, loading := false }, [.deleteFace])

/-- C10: whenever the upload (resp. delete) call succeeds, the handler
issues the gallery reload call, the success banner is set, and neither the
resulting component state nor the issued calls depend on the reload's
outcome — a reload failure is caught and logged without failing the
operation. -/
theorem staff_reload_isolated (env : StaffFacesEnv) (st : UIState)
    (f : String) (hfile : st.selectedFile = some f)
    (hname : ¬ jsTrim st.staffName = "")
    (uname : String) (hup : env.uploadRes = .ok uname)
    (g : String) (hdel : st.fileToDelete = some g)
    (hok : env.deleteRes = .ok ()) :
    (∀ r, (handleUpload { env with reloadRes := r } st).2.contains .reloadFaces = true ∧
      (handleUpload { env with reloadRes := r } st).1.success = some (uploadSuccessMsg uname) ∧
      handleUpload { env with reloadRes := r } st = handleUpload env st) ∧
    (∀ r, (handleDeleteConfirm { env with reloadRes := r } st).2.contains .reloadFaces = true ∧
      (handleDeleteConfirm { env with reloadRes := r } st).1.success =
        some "Foto staff berhasil dihapus" ∧
      handleDeleteConfirm { env with reloadRes := r } st = handleDeleteConfirm env st) := by
  constructor
  · intro r
    refine ⟨?_, ?_, ?_⟩ <;>
      cases hlist : env.listRes <;>
        simp [handleUpload, loadStaffFaces, hfile, hname, hup, hlist]
  · intro r
    refine ⟨?_, ?_, ?_⟩ <;>
      cases hlist : env.listRes <;>
        simp [handleDeleteConfirm, loadStaffFaces, hdel, hok, hlist]

/-- Witness for `staff_reload_isolated` at a concrete environment and
component state. -/
theorem staff_reload_isolated_witness :
    let env : StaffFacesEnv :=
      ⟨.ok "Budi", .ok (), .ok ["budi.jpg"], .err "reload failed"⟩
    let st : UIState :=
      ⟨[], false, false, none, none, true, some "budi.jpg", none, "Budi", true,
        some "old.jpg"⟩
    (∀ r, (handleUpload { env with reloadRes := r } st).2.contains .reloadFaces = true ∧
      (handleUpload { env with reloadRes := r } st).1.success =
        some (uploadSuccessMsg "Budi") ∧
      handleUpload { env with reloadRes := r } st = handleUpload env st) ∧
    (∀ r, (handleDeleteConfirm { env with reloadRes := r } st).2.contains .reloadFaces = true ∧
      (handleDeleteConfirm { env with reloadRes := r } st).1.success =
        some "Foto staff berhasil dihapus" ∧
      handleDeleteConfirm { env with reloadRes := r } st = handleDeleteConfirm env st) :=
  staff_reload_isolated
    ⟨.ok "Budi", .ok (), .ok ["budi.jpg"], .err "reload failed"⟩
    ⟨[], false, false, none, none, true, some "budi.jpg", none, "Budi", true,
      some "old.jpg"⟩
    "budi.jpg" rfl (by decide) "Budi" rfl "old.jpg" rfl rfl

end AISSB
